import Mathlib

/-!
# Remy grocery-planning workflow: formal model

A shallow embedding of the Remy planning workflow.  The frontend page
logic (`Home.tsx`, `client.ts`) is embedded directly from the source.
The backend Workflow Engine, Stage Handlers and Tenant Checkpoint Store
(the `remy-api` service) are not present in the source tree, so they are
modelled from the specification, as marked on each definition below.
-/

namespace Remy

/-- Modelled from the spec: the `stage` enum of `WorkflowState` (§3);
the backend engine code is missing from the source tree. -/
inductive Stage where
  | IDLE
  | AWAITING_RECIPE_SELECTION
  | AWAITING_CART_APPROVAL
  | COMPLETED
  | FAILED
deriving DecidableEq

/-- Modelled from the spec: a candidate recipe record
`{name, source, external_reference}` (§3). -/
structure Recipe where
  name : String
  source : String
  external_reference : String
deriving DecidableEq

/-- Modelled from the spec: a cart item `{item_name, quantity?, unit?}` (§3, §9). -/
structure CartItem where
  item_name : String
  quantity : Option Nat
  unit : Option String
deriving DecidableEq

/-- Modelled from the spec: the commerce collaborator's per-item reply
`{accepted: bool, provider_reference?}` (§6). -/
structure SearchAddResult where
  accepted : Bool
  provider_reference : Option String
deriving DecidableEq

/-- Modelled from the spec: one aggregated per-item outcome of
Fulfillment Execution (§4.5). -/
structure ItemOutcome where
  item : CartItem
  accepted : Bool
  provider_reference : Option String
deriving DecidableEq

/-- Modelled from the spec: the `fulfillment_result` summary of successes
and failures (§3, §4.5). -/
structure FulfillmentResult where
  outcomes : List ItemOutcome
deriving DecidableEq

/-- Modelled from the spec: the per-tenant `WorkflowState` record (§3). -/
structure WorkflowState where
  tenant_id : String
  stage : Stage
  conversation_log : List String
  candidate_recipes : List Recipe
  selected_recipes : List Recipe
  pending_cart_items : List CartItem
  fulfillment_result : Option FulfillmentResult
  version : Nat
deriving DecidableEq

/-- Modelled from the spec: the error taxonomy of §7 plus the store-level
`VersionConflict` of §4.1. -/
inductive EngineError where
  | InvalidTransition
  | InvalidSelection
  | UpstreamUnavailable
  | ConcurrentModification
  | StorageUnavailable
  | VersionConflict
deriving DecidableEq

/-- Modelled from the spec: a collaborator call that can fail with
`Unavailable` (§6). -/
inductive UpstreamFailure where
  | unavailable
deriving DecidableEq

/-- Modelled from the spec: the Recipe Source collaborator contract (§6). -/
structure RecipeSource where
  findByName : String → Except UpstreamFailure (List Recipe)
  fetchIngredients : String → Except UpstreamFailure (List CartItem)

/-- Modelled from the spec: the Commerce Source collaborator contract (§6);
`searchAndAdd` never throws for "item not found", that is `accepted := false`. -/
structure CommerceSource where
  searchAndAdd : CartItem → SearchAddResult

/-- Modelled from the spec: the collaborators and the tenant's
pantry-exclusion set read by Pantry Reconciliation (§4.3, §6). -/
structure Env where
  recipes : RecipeSource
  commerce : CommerceSource
  pantry : List String

/-- Modelled from the spec: the Tenant Checkpoint Store contents, keyed by
tenant id; absence is a fresh IDLE state (§3, §4.1). -/
def Store : Type := String → Option WorkflowState

/-- Modelled from the spec: the fresh IDLE snapshot with version 0 (§3). -/
def freshIdle (t : String) : WorkflowState :=
  { tenant_id := t
    stage := Stage.IDLE
    conversation_log := []
    candidate_recipes := []
    selected_recipes := []
    pending_cart_items := []
    fulfillment_result := none
    version := 0 }

/-- Modelled from the spec: `load(tenant_id)` returns a fresh IDLE state
with version 0 if none exists and never fails for a missing tenant (§4.1). -/
def load (s : Store) (t : String) : WorkflowState :=
  (s t).getD (freshIdle t)

/-- Modelled from the spec: the durable write underlying `save` (§4.1). -/
def storePut (s : Store) (t : String) (st : WorkflowState) : Store :=
  fun u => if u = t then some st else s u

/-- Modelled from the spec: `save` fails with `VersionConflict` if the
stored version does not match the version the caller last loaded (§4.1). -/
def attemptSave (s : Store) (t : String) (loadedVersion : Nat) (st : WorkflowState) :
    Except EngineError Store :=
  if (load s t).version = loadedVersion then Except.ok (storePut s t st)
  else Except.error EngineError.VersionConflict

/-- Modelled from the spec: `delete(tenant_id)` is idempotent and succeeds
even if no state exists (§4.1). -/
def storeDelete (s : Store) (t : String) : Store :=
  fun u => if u = t then none else s u

/-- Modelled from the spec: the normalized item name used by Pantry
Reconciliation; matching is case-insensitive on the normalized name only
(§4.3). -/
def normalizeName (s : String) : String := String.mk (s.data.map Char.toLower)

/-- Modelled from the spec: an ingredient is removed when its normalized
name exactly matches an entry of the pantry-exclusion set, case-insensitive,
with no fuzzy matching (§4.3). -/
def isPantryExcluded (pantry : List String) (i : CartItem) : Bool :=
  pantry.any (fun p => normalizeName i.item_name = normalizeName p)

/-- Modelled from the spec: Stage Handler "Recipe Resolution" (§4.2):
populates `candidate_recipes` from the recipe source and transitions to
AWAITING_RECIPE_SELECTION; zero matches still transition with an
explanatory message; a collaborator error fails with `UpstreamUnavailable`. -/
def handleRecipeResolution (rs : RecipeSource) (st : WorkflowState) (request : String) :
    Except EngineError WorkflowState :=
  match rs.findByName request with
  | Except.error _ => Except.error EngineError.UpstreamUnavailable
  | Except.ok cands =>
      Except.ok
        { st with
          stage := Stage.AWAITING_RECIPE_SELECTION
          candidate_recipes := cands
          conversation_log :=
            st.conversation_log ++
              (if cands.isEmpty then ["No recipes matched the request."] else []) }

/-- Modelled from the spec: fetch the full ingredient list of each selected
recipe from the recipe source (§4.3). -/
def fetchAllIngredients (rs : RecipeSource) :
    List Recipe → Except UpstreamFailure (List (List CartItem))
  | [] => Except.ok []
  | r :: rest =>
      match rs.fetchIngredients r.external_reference with
      | Except.error e => Except.error e
      | Except.ok l =>
          match fetchAllIngredients rs rest with
          | Except.error e => Except.error e
          | Except.ok ls => Except.ok (l :: ls)

/-- Modelled from the spec: the union of the selected recipes' ingredient
lists (§4.3). -/
def unionAll : List (List CartItem) → List CartItem
  | [] => []
  | l :: ls => l.union (unionAll ls)

/-- Modelled from the spec: Stage Handler "Pantry Reconciliation" (§4.3):
rejects an empty selection with `InvalidSelection` before any state
mutation, rejects a selection not drawn from `candidate_recipes` (§8),
unions the ingredient lists, removes pantry-excluded ingredients and
transitions to AWAITING_CART_APPROVAL. -/
def handlePantryReconciliation (rs : RecipeSource) (pantry : List String)
    (st : WorkflowState) (chosen : List Recipe) : Except EngineError WorkflowState :=
  if chosen.isEmpty then Except.error EngineError.InvalidSelection
  else if !(chosen.all (fun r => st.candidate_recipes.contains r)) then
    Except.error EngineError.InvalidSelection
  else
    match fetchAllIngredients rs chosen with
    | Except.error _ => Except.error EngineError.UpstreamUnavailable
    | Except.ok ingredientLists =>
        Except.ok
          { st with
            stage := Stage.AWAITING_CART_APPROVAL
            selected_recipes := chosen
            pending_cart_items :=
              (unionAll ingredientLists).filter (fun i => !isPantryExcluded pantry i) }

/-- Modelled from the spec: the per-item outcomes of Fulfillment Execution,
one `searchAndAdd` attempt per approved item, independent of any other
item's failure (§4.5). -/
def fulfillOutcomes (cs : CommerceSource) (approved : List CartItem) :
    List ItemOutcome :=
  approved.map (fun i =>
    ItemOutcome.mk i (cs.searchAndAdd i).accepted (cs.searchAndAdd i).provider_reference)

/-- Modelled from the spec: Stage Handlers "Approval Gate" and "Fulfillment
Execution" (§4.4, §4.5, §8): the approved items must be a subset of
`pending_cart_items`; an empty approval is a no-op fulfillment going to
COMPLETED with an empty result and no commerce call; otherwise each item is
attempted independently via `searchAndAdd`, outcomes are aggregated, and the
stage becomes COMPLETED when at least one item is accepted, FAILED when all
fail.  The second component records the commerce calls made. -/
def handleFulfillment (cs : CommerceSource) (st : WorkflowState)
    (approved : List CartItem) : Except EngineError (WorkflowState × List CartItem) :=
  if !(approved.all (fun i => st.pending_cart_items.contains i)) then
    Except.error EngineError.InvalidSelection
  else if approved.isEmpty then
    Except.ok
      ({ st with
          stage := Stage.COMPLETED
          fulfillment_result := some { outcomes := [] } }, [])
  else
    Except.ok
      ({ st with
          stage :=
            if (fulfillOutcomes cs approved).any (fun o => o.accepted) then
              Stage.COMPLETED
            else Stage.FAILED
          fulfillment_result := some { outcomes := fulfillOutcomes cs approved } },
        approved)

/-- Modelled from the spec: the engine's persist step after a successful
handler run: the persisted version is the loaded version plus one, and a
`VersionConflict` from the store surfaces as `ConcurrentModification`
without automatic retry (§3, §4.6). -/
def finishMutation (s : Store) (t : String) (loaded st' : WorkflowState) :
    Store × Except EngineError WorkflowState :=
  match attemptSave s t loaded.version { st' with version := loaded.version + 1 } with
  | Except.error _ => (s, Except.error EngineError.ConcurrentModification)
  | Except.ok s' => (s', Except.ok { st' with version := loaded.version + 1 })

/-- Modelled from the spec: the commit phase of `start` against a state
previously loaded: `start` is rejected with `InvalidTransition` on a
non-IDLE state (§4.6); on handler failure the store is untouched and the
error surfaces verbatim (§7). -/
def startCommit (env : Env) (loaded : WorkflowState) (s : Store) (t : String)
    (request : String) : Store × Except EngineError WorkflowState :=
  if loaded.stage = Stage.IDLE then
    match handleRecipeResolution env.recipes loaded request with
    | Except.error e => (s, Except.error e)
    | Except.ok st' => finishMutation s t loaded st'
  else (s, Except.error EngineError.InvalidTransition)

/-- Modelled from the spec: engine operation `start(tenant_id, request_text)`
(§4.6). -/
def start (env : Env) (s : Store) (t : String) (request : String) :
    Store × Except EngineError WorkflowState :=
  startCommit env (load s t) s t request

/-- Modelled from the spec: the commit phase of `select` against a state
previously loaded; `select` requires AWAITING_RECIPE_SELECTION (§4.6). -/
def selectCommit (env : Env) (loaded : WorkflowState) (s : Store) (t : String)
    (chosen : List Recipe) : Store × Except EngineError WorkflowState :=
  if loaded.stage = Stage.AWAITING_RECIPE_SELECTION then
    match handlePantryReconciliation env.recipes env.pantry loaded chosen with
    | Except.error e => (s, Except.error e)
    | Except.ok st' => finishMutation s t loaded st'
  else (s, Except.error EngineError.InvalidTransition)

/-- Modelled from the spec: engine operation `select(tenant_id,
chosen_recipes)` (§4.6). -/
def select (env : Env) (s : Store) (t : String) (chosen : List Recipe) :
    Store × Except EngineError WorkflowState :=
  selectCommit env (load s t) s t chosen

/-- Modelled from the spec: the outcome of `approve`, with the list of
commerce-collaborator calls made during the operation. -/
structure ApproveResult where
  store : Store
  result : Except EngineError WorkflowState
  commerce_calls : List CartItem

/-- Modelled from the spec: engine operation `approve(tenant_id,
approved_items)`; requires AWAITING_CART_APPROVAL (§4.6). -/
def approve (env : Env) (s : Store) (t : String) (approved : List CartItem) :
    ApproveResult :=
  if (load s t).stage = Stage.AWAITING_CART_APPROVAL then
    match handleFulfillment env.commerce (load s t) approved with
    | Except.error e => { store := s, result := Except.error e, commerce_calls := [] }
    | Except.ok (st', calls) =>
        { store := (finishMutation s t (load s t) st').1
          result := (finishMutation s t (load s t) st').2
          commerce_calls := calls }
  else
    { store := s, result := Except.error EngineError.InvalidTransition
      commerce_calls := [] }

/-- Modelled from the spec: engine operation `reset(tenant_id)` deletes the
checkpoint unconditionally (§4.6). -/
def reset (s : Store) (t : String) : Store :=
  storeDelete s t

/-- Modelled from the spec: engine operation `inspect(tenant_id)` never
mutates and reports the externally-visible state (§4.6). -/
def inspect (s : Store) (t : String) : WorkflowState :=
  load s t

/-- Modelled from the spec: an inbound mutating event of the engine (§4.6). -/
inductive Op where
  | opStart (request : String)
  | opSelect (chosen : List Recipe)
  | opApprove (approved : List CartItem)

/-- Modelled from the spec: dispatch of a mutating event to its engine
operation (§4.6), returning the store after the operation and its result. -/
def runOp (env : Env) (s : Store) (t : String) :
    Op → Store × Except EngineError WorkflowState
  | Op.opStart r => start env s t r
  | Op.opSelect c => select env s t c
  | Op.opApprove a => ((approve env s t a).store, (approve env s t a).result)

/-- A stage is terminal when it is COMPLETED or FAILED (§3). -/
def terminalStage : Stage → Bool
  | Stage.COMPLETED => true
  | Stage.FAILED => true
  | _ => false

/-- The transition edges the spec allows (§3): strictly forward along
IDLE → AWAITING_RECIPE_SELECTION → AWAITING_CART_APPROVAL → COMPLETED,
with FAILED reachable from any non-terminal stage. -/
def allowedEdge : Stage → Stage → Bool
  | Stage.IDLE, Stage.AWAITING_RECIPE_SELECTION => true
  | Stage.AWAITING_RECIPE_SELECTION, Stage.AWAITING_CART_APPROVAL => true
  | Stage.AWAITING_CART_APPROVAL, Stage.COMPLETED => true
  | Stage.IDLE, Stage.FAILED => true
  | Stage.AWAITING_RECIPE_SELECTION, Stage.FAILED => true
  | Stage.AWAITING_CART_APPROVAL, Stage.FAILED => true
  | _, _ => false

/-! ## Frontend embedding (from `src`: Home page and API client) -/

/-- From the source (`Home.tsx`): the `RecipeOption` interface. -/
structure RecipeOption where
  name : String
  source : String
  url : Option String
  image_url : Option String
  slug : Option String
deriving DecidableEq

/-- From the source (`Home.tsx`): an element of `PlanState.pending_cart`,
`{ name; quantity?; unit? }`. -/
structure PendingItem where
  name : String
  quantity : Option Nat
  unit : Option String
deriving DecidableEq

/-- From the source (`Home.tsx`): the `PlanState` interface; `pending_cart`
is modelled as optional because the page code guards against its absence
(`!planState?.pending_cart`). -/
structure PlanState where
  recipe_options : List RecipeOption
  pending_cart : Option (List PendingItem)
  messages : List String
deriving DecidableEq

/-- From the source (`Home.tsx`): `handleApproveCart` returns early when
`planState?.pending_cart` is nullish and otherwise calls
`approveCart.mutate(planState.pending_cart)`; the result is the argument of
the mutate call, `none` when no call is made. -/
def handleApproveCart (planState : Option PlanState) : Option (List PendingItem) :=
  match planState with
  | none => none
  | some ps =>
      match ps.pending_cart with
      | none => none
      | some l => some l

/-- From the source (`Home.tsx`): `const pendingCart = planState?.pending_cart || []`. -/
def pendingCartOf (planState : Option PlanState) : List PendingItem :=
  match planState with
  | none => []
  | some ps => ps.pending_cart.getD []

/-- From the source (`Home.tsx`): the pending-cart block, which holds the
"Add to Cart" approve button, renders only when `pendingCart.length > 0`. -/
def approveButtonRendered (planState : Option PlanState) : Bool :=
  decide (0 < (pendingCartOf planState).length)

/-- From the source (`Home.tsx`): `handleSelectRecipes` returns early when
zero recipes are selected and otherwise calls
`selectRecipes.mutate(selectedRecipes)`. -/
def handleSelectRecipes (selectedRecipes : List RecipeOption) :
    Option (List RecipeOption) :=
  if selectedRecipes.length = 0 then none else some selectedRecipes

/-! ## Concrete fixtures, following the end-to-end scenario of spec §8 -/

/-- The "Shrimp Scampi" recipe of the spec's end-to-end scenario (§8). -/
def recipeScampi : Recipe :=
  { name := "Shrimp Scampi", source := "mealie", external_reference := "scampi" }

/-- Scenario ingredient "shrimp" (§8). -/
def itemShrimp : CartItem := { item_name := "shrimp", quantity := none, unit := none }

/-- Scenario ingredient "salt" (§8). -/
def itemSalt : CartItem := { item_name := "salt", quantity := none, unit := none }

/-- Scenario ingredient "pasta" (§8). -/
def itemPasta : CartItem := { item_name := "pasta", quantity := none, unit := none }

/-- Scenario environment (§8): the recipe source finds "Shrimp Scampi" with
ingredients shrimp, salt and pasta; the commerce collaborator accepts
"shrimp" and rejects "pasta"; the pantry-exclusion set contains "Salt"
(exercising the case-insensitive match against ingredient "salt"). -/
def env0 : Env :=
  { recipes :=
      { findByName := fun _ => Except.ok [recipeScampi]
        fetchIngredients := fun _ => Except.ok [itemShrimp, itemSalt, itemPasta] }
    commerce :=
      { searchAndAdd := fun i =>
          if i.item_name = "shrimp" then
            { accepted := true, provider_reference := some "k1" }
          else { accepted := false, provider_reference := none } }
    pantry := ["Salt"] }

/-- An environment whose recipe source is unreachable (§4.2 failure mode). -/
def envDown : Env :=
  { env0 with
    recipes :=
      { findByName := fun _ => Except.error UpstreamFailure.unavailable
        fetchIngredients := fun _ => Except.error UpstreamFailure.unavailable } }

/-- The empty checkpoint store: every tenant is fresh IDLE. -/
def store0 : Store := fun _ => none

/-- A tenant state awaiting recipe selection with "Shrimp Scampi" as the
only candidate. -/
def wsSelecting : WorkflowState :=
  { freshIdle "t" with
    stage := Stage.AWAITING_RECIPE_SELECTION
    candidate_recipes := [recipeScampi]
    version := 1 }

/-- A store holding `wsSelecting` for every tenant. -/
def storeSelecting : Store := fun _ => some wsSelecting

/-- A tenant state awaiting cart approval of shrimp and pasta. -/
def wsApproving : WorkflowState :=
  { freshIdle "t" with
    stage := Stage.AWAITING_CART_APPROVAL
    pending_cart_items := [itemShrimp, itemPasta]
    version := 2 }

/-- A store holding `wsApproving` for every tenant. -/
def storeApproving : Store := fun _ => some wsApproving

/-- The persisted state produced by `start` on a fresh tenant in `env0`. -/
def wsStarted : WorkflowState :=
  { tenant_id := "t"
    stage := Stage.AWAITING_RECIPE_SELECTION
    conversation_log := []
    candidate_recipes := [recipeScampi]
    selected_recipes := []
    pending_cart_items := []
    fulfillment_result := none
    version := 1 }

/-- The persisted state produced by selecting "Shrimp Scampi" from
`storeSelecting` in `env0`: pantry entry "Salt" removes ingredient "salt". -/
def wsSelected : WorkflowState :=
  { tenant_id := "t"
    stage := Stage.AWAITING_CART_APPROVAL
    conversation_log := []
    candidate_recipes := [recipeScampi]
    selected_recipes := [recipeScampi]
    pending_cart_items := [itemShrimp, itemPasta]
    fulfillment_result := none
    version := 2 }

/-- The pre-version-bump state the Pantry Reconciliation handler returns on
`wsSelecting` for the selection `[recipeScampi]` in `env0`. -/
def wsSelectedHandler : WorkflowState :=
  { wsSelecting with
    stage := Stage.AWAITING_CART_APPROVAL
    selected_recipes := [recipeScampi]
    pending_cart_items := [itemShrimp, itemPasta] }

/-- A concrete frontend pending-cart item. -/
def pendingShrimp : PendingItem := { name := "shrimp", quantity := none, unit := none }

/-- A concrete frontend plan state with a one-item pending cart. -/
def planStateW : Option PlanState :=
  some { recipe_options := [], pending_cart := some [pendingShrimp], messages := [] }

/-! ## Helper lemmas -/

theorem load_storePut (s : Store) (t : String) (st : WorkflowState) :
    load (storePut s t st) t = st := by
  simp [load, storePut]

theorem load_storeDelete (s : Store) (t : String) :
    load (storeDelete s t) t = freshIdle t := by
  simp [load, storeDelete]

theorem finishMutation_eq_of_version (s : Store) (t : String)
    (loaded st' : WorkflowState) (h : (load s t).version = loaded.version) :
    finishMutation s t loaded st' =
      (storePut s t { st' with version := loaded.version + 1 },
       Except.ok { st' with version := loaded.version + 1 }) := by
  unfold finishMutation attemptSave
  rw [if_pos h]

theorem finishMutation_conflict (s : Store) (t : String)
    (loaded st' : WorkflowState) (h : (load s t).version ≠ loaded.version) :
    finishMutation s t loaded st' =
      (s, Except.error EngineError.ConcurrentModification) := by
  unfold finishMutation attemptSave
  rw [if_neg h]

theorem handleRecipeResolution_ok_stage (rs : RecipeSource) (st : WorkflowState)
    (r : String) (stm : WorkflowState)
    (h : handleRecipeResolution rs st r = Except.ok stm) :
    stm.stage = Stage.AWAITING_RECIPE_SELECTION := by
  unfold handleRecipeResolution at h
  cases hfb : rs.findByName r with
  | error e => rw [hfb] at h; exact Except.noConfusion h
  | ok cands =>
      rw [hfb] at h
      have h2 := Except.ok.inj h
      rw [← h2]

theorem handlePantryReconciliation_ok_inversion (rs : RecipeSource)
    (pantry : List String) (st : WorkflowState) (chosen : List Recipe)
    (stm : WorkflowState)
    (h : handlePantryReconciliation rs pantry st chosen = Except.ok stm) :
    stm.stage = Stage.AWAITING_CART_APPROVAL ∧
    ∃ ls, fetchAllIngredients rs chosen = Except.ok ls ∧
      stm.pending_cart_items =
        (unionAll ls).filter (fun i => !isPantryExcluded pantry i) := by
  unfold handlePantryReconciliation at h
  split at h
  · exact Except.noConfusion h
  · split at h
    · exact Except.noConfusion h
    · cases hfa : fetchAllIngredients rs chosen with
      | error e => rw [hfa] at h; exact Except.noConfusion h
      | ok ls =>
          rw [hfa] at h
          have h2 := Except.ok.inj h
          subst h2
          exact ⟨rfl, ls, rfl, rfl⟩

theorem handleFulfillment_ok_stage (cs : CommerceSource) (st : WorkflowState)
    (a : List CartItem) (p : WorkflowState × List CartItem)
    (h : handleFulfillment cs st a = Except.ok p) :
    p.1.stage = Stage.COMPLETED ∨ p.1.stage = Stage.FAILED := by
  unfold handleFulfillment at h
  split at h
  · exact Except.noConfusion h
  · split at h
    · have h2 := Except.ok.inj h
      subst h2
      exact Or.inl rfl
    · have h2 := Except.ok.inj h
      subst h2
      by_cases hb : ((fulfillOutcomes cs a).any fun o => o.accepted) = true
      · exact Or.inl (by simp [hb])
      · exact Or.inr (by simp [hb])

theorem start_eq_of_ok (env : Env) (s : Store) (t r : String) (stm : WorkflowState)
    (hpos : (load s t).stage = Stage.IDLE)
    (hh : handleRecipeResolution env.recipes (load s t) r = Except.ok stm) :
    start env s t r =
      (storePut s t { stm with version := (load s t).version + 1 },
       Except.ok { stm with version := (load s t).version + 1 }) := by
  unfold start startCommit
  rw [if_pos hpos, hh]
  show finishMutation s t (load s t) stm = _
  exact finishMutation_eq_of_version s t (load s t) stm rfl

theorem select_eq_of_ok (env : Env) (s : Store) (t : String) (chosen : List Recipe)
    (stm : WorkflowState)
    (hpos : (load s t).stage = Stage.AWAITING_RECIPE_SELECTION)
    (hh : handlePantryReconciliation env.recipes env.pantry (load s t) chosen =
      Except.ok stm) :
    select env s t chosen =
      (storePut s t { stm with version := (load s t).version + 1 },
       Except.ok { stm with version := (load s t).version + 1 }) := by
  unfold select selectCommit
  rw [if_pos hpos, hh]
  show finishMutation s t (load s t) stm = _
  exact finishMutation_eq_of_version s t (load s t) stm rfl

theorem approve_eq_of_ok (env : Env) (s : Store) (t : String) (a : List CartItem)
    (stm : WorkflowState) (calls : List CartItem)
    (hpos : (load s t).stage = Stage.AWAITING_CART_APPROVAL)
    (hh : handleFulfillment env.commerce (load s t) a = Except.ok (stm, calls)) :
    approve env s t a =
      { store := storePut s t { stm with version := (load s t).version + 1 }
        result := Except.ok { stm with version := (load s t).version + 1 }
        commerce_calls := calls } := by
  unfold approve
  rw [if_pos hpos, hh]
  show ({ store := (finishMutation s t (load s t) stm).1
          result := (finishMutation s t (load s t) stm).2
          commerce_calls := calls } : ApproveResult) = _
  rw [finishMutation_eq_of_version s t (load s t) stm rfl]

theorem start_ok_inversion (env : Env) (s : Store) (t r : String)
    (st1 : WorkflowState) (h : (start env s t r).2 = Except.ok st1) :
    (load s t).stage = Stage.IDLE ∧
    st1.stage = Stage.AWAITING_RECIPE_SELECTION ∧
    st1.version = (load s t).version + 1 ∧
    (start env s t r).1 = storePut s t st1 := by
  by_cases hpos : (load s t).stage = Stage.IDLE
  · cases hh : handleRecipeResolution env.recipes (load s t) r with
    | error e =>
        exfalso
        have he : (start env s t r).2 = Except.error e := by
          unfold start startCommit
          rw [if_pos hpos, hh]
        rw [he] at h
        exact Except.noConfusion h
    | ok stm =>
        have he := start_eq_of_ok env s t r stm hpos hh
        rw [he] at h
        have h2 := Except.ok.inj h
        subst h2
        refine ⟨hpos, ?_, rfl, by rw [he]⟩
        exact handleRecipeResolution_ok_stage env.recipes (load s t) r stm hh
  · exfalso
    have he : (start env s t r).2 = Except.error EngineError.InvalidTransition := by
      unfold start startCommit
      rw [if_neg hpos]
    rw [he] at h
    exact Except.noConfusion h

theorem select_ok_inversion (env : Env) (s : Store) (t : String)
    (chosen : List Recipe) (st1 : WorkflowState)
    (h : (select env s t chosen).2 = Except.ok st1) :
    (load s t).stage = Stage.AWAITING_RECIPE_SELECTION ∧
    st1.stage = Stage.AWAITING_CART_APPROVAL ∧
    st1.version = (load s t).version + 1 ∧
    (select env s t chosen).1 = storePut s t st1 := by
  by_cases hpos : (load s t).stage = Stage.AWAITING_RECIPE_SELECTION
  · cases hh : handlePantryReconciliation env.recipes env.pantry (load s t) chosen with
    | error e =>
        exfalso
        have he : (select env s t chosen).2 = Except.error e := by
          unfold select selectCommit
          rw [if_pos hpos, hh]
        rw [he] at h
        exact Except.noConfusion h
    | ok stm =>
        have he := select_eq_of_ok env s t chosen stm hpos hh
        rw [he] at h
        have h2 := Except.ok.inj h
        subst h2
        refine ⟨hpos, ?_, rfl, by rw [he]⟩
        exact (handlePantryReconciliation_ok_inversion env.recipes env.pantry
          (load s t) chosen stm hh).1
  · exfalso
    have he : (select env s t chosen).2 = Except.error EngineError.InvalidTransition := by
      unfold select selectCommit
      rw [if_neg hpos]
    rw [he] at h
    exact Except.noConfusion h

theorem approve_ok_inversion (env : Env) (s : Store) (t : String)
    (a : List CartItem) (st1 : WorkflowState)
    (h : (approve env s t a).result = Except.ok st1) :
    (load s t).stage = Stage.AWAITING_CART_APPROVAL ∧
    (st1.stage = Stage.COMPLETED ∨ st1.stage = Stage.FAILED) ∧
    st1.version = (load s t).version + 1 ∧
    (approve env s t a).store = storePut s t st1 := by
  by_cases hpos : (load s t).stage = Stage.AWAITING_CART_APPROVAL
  · cases hh : handleFulfillment env.commerce (load s t) a with
    | error e =>
        exfalso
        have he : (approve env s t a).result = Except.error e := by
          unfold approve
          rw [if_pos hpos, hh]
        rw [he] at h
        exact Except.noConfusion h
    | ok p =>
        have he := approve_eq_of_ok env s t a p.1 p.2 hpos (by rw [hh])
        rw [he] at h
        have h2 := Except.ok.inj h
        subst h2
        refine ⟨hpos, ?_, rfl, by rw [he]⟩
        exact handleFulfillment_ok_stage env.commerce (load s t) a p hh
  · exfalso
    have he : (approve env s t a).result = Except.error EngineError.InvalidTransition := by
      unfold approve
      rw [if_neg hpos]
    rw [he] at h
    exact Except.noConfusion h

theorem all_not_eq_not_any {α : Type} (p : α → Bool) (l : List α) :
    (l.all fun i => !p i) = !(l.any p) := by
  induction l with
  | nil => rfl
  | cons a l ih => simp [List.all_cons, List.any_cons, Bool.not_or, ih]

theorem fulfillOutcomes_any_accepted (cs : CommerceSource) (l : List CartItem) :
    ((fulfillOutcomes cs l).any fun o => o.accepted) =
      (l.any fun i => (cs.searchAndAdd i).accepted) := by
  induction l with
  | nil => rfl
  | cons a l ih => simp [fulfillOutcomes, List.any_cons] at ih ⊢; rw [ih]

theorem fulfillOutcomes_map_item (cs : CommerceSource) (l : List CartItem) :
    (fulfillOutcomes cs l).map ItemOutcome.item = l := by
  induction l with
  | nil => rfl
  | cons a l ih => simp [fulfillOutcomes] at ih ⊢; exact ih

/-! ## Claim theorems -/

/-- Claim C9: for every tenant and prior state, `inspect` immediately after
`reset` returns the fresh IDLE state: stage IDLE, empty candidate, selected,
pending and result fields, and version 0, since `reset` deletes the
checkpoint and `load` of a missing tenant returns the fresh IDLE state. -/
theorem inspect_after_reset_is_fresh_idle (s : Store) (t : String) :
    inspect (reset s t) t = freshIdle t ∧
    (inspect (reset s t) t).stage = Stage.IDLE ∧
    (inspect (reset s t) t).candidate_recipes = [] ∧
    (inspect (reset s t) t).selected_recipes = [] ∧
    (inspect (reset s t) t).pending_cart_items = [] ∧
    (inspect (reset s t) t).fulfillment_result = none ∧
    (inspect (reset s t) t).version = 0 := by
  have h : inspect (reset s t) t = freshIdle t := load_storeDelete s t
  exact ⟨h, by rw [h]; rfl, by rw [h]; rfl, by rw [h]; rfl, by rw [h]; rfl,
    by rw [h]; rfl, by rw [h]; rfl⟩

/-- Claim C5: for every tenant whose persisted state is not in stage IDLE,
`start` fails with `InvalidTransition` and the stored `WorkflowState`,
including its version and every other field, is unchanged. -/
theorem start_nonidle_rejected (env : Env) (s : Store) (t r : String)
    (h : (inspect s t).stage ≠ Stage.IDLE) :
    start env s t r = (s, Except.error EngineError.InvalidTransition) ∧
    inspect (start env s t r).1 t = inspect s t := by
  have hne : ¬ (load s t).stage = Stage.IDLE := h
  have he : start env s t r = (s, Except.error EngineError.InvalidTransition) := by
    unfold start startCommit
    rw [if_neg hne]
  exact ⟨he, by rw [he]⟩

/-- Witness for C5 at a concrete non-IDLE tenant state. -/
theorem start_nonidle_rejected_witness :
    start env0 storeSelecting "t" "x" =
      (storeSelecting, Except.error EngineError.InvalidTransition) ∧
    inspect (start env0 storeSelecting "t" "x").1 "t" = inspect storeSelecting "t" :=
  start_nonidle_rejected env0 storeSelecting "t" "x" (by decide)

/-- Claim C6: in stage AWAITING_RECIPE_SELECTION, `select` with an empty
selection fails with `InvalidSelection` before any state mutation: the
persisted state is identical before and after the call. -/
theorem select_empty_rejected (env : Env) (s : Store) (t : String)
    (h : (inspect s t).stage = Stage.AWAITING_RECIPE_SELECTION) :
    select env s t [] = (s, Except.error EngineError.InvalidSelection) ∧
    inspect (select env s t []).1 t = inspect s t := by
  have hpos : (load s t).stage = Stage.AWAITING_RECIPE_SELECTION := h
  have he : select env s t [] = (s, Except.error EngineError.InvalidSelection) := by
    unfold select selectCommit
    rw [if_pos hpos]
    rfl
  exact ⟨he, by rw [he]⟩

/-- Witness for C6 at a concrete selecting tenant state. -/
theorem select_empty_rejected_witness :
    select env0 storeSelecting "t" [] =
      (storeSelecting, Except.error EngineError.InvalidSelection) ∧
    inspect (select env0 storeSelecting "t" []).1 "t" = inspect storeSelecting "t" :=
  select_empty_rejected env0 storeSelecting "t" (by decide)

/-- Claim C4: for every mutating engine operation, if the invoked Stage
Handler fails, no save to the checkpoint store occurs — the previously
persisted state (stage and version included) remains authoritative — and
the handler's error is surfaced verbatim to the caller. -/
theorem handler_failure_no_save (env : Env) (s : Store) (t : String) :
    (∀ r e, (inspect s t).stage = Stage.IDLE →
        handleRecipeResolution env.recipes (inspect s t) r = Except.error e →
        start env s t r = (s, Except.error e)) ∧
    (∀ c e, (inspect s t).stage = Stage.AWAITING_RECIPE_SELECTION →
        handlePantryReconciliation env.recipes env.pantry (inspect s t) c =
          Except.error e →
        select env s t c = (s, Except.error e)) ∧
    (∀ a e, (inspect s t).stage = Stage.AWAITING_CART_APPROVAL →
        handleFulfillment env.commerce (inspect s t) a = Except.error e →
        approve env s t a =
          { store := s, result := Except.error e, commerce_calls := [] }) := by
  refine ⟨?_, ?_, ?_⟩
  · intro r e hpos hh
    have hpos' : (load s t).stage = Stage.IDLE := hpos
    have hh' : handleRecipeResolution env.recipes (load s t) r = Except.error e := hh
    unfold start startCommit
    rw [if_pos hpos', hh']
  · intro c e hpos hh
    have hpos' : (load s t).stage = Stage.AWAITING_RECIPE_SELECTION := hpos
    have hh' : handlePantryReconciliation env.recipes env.pantry (load s t) c =
        Except.error e := hh
    unfold select selectCommit
    rw [if_pos hpos', hh']
  · intro a e hpos hh
    have hpos' : (load s t).stage = Stage.AWAITING_CART_APPROVAL := hpos
    have hh' : handleFulfillment env.commerce (load s t) a = Except.error e := hh
    unfold approve
    rw [if_pos hpos', hh']

/-- Witness for C4: an unreachable recipe source makes `start` fail with
`UpstreamUnavailable` and leaves the store untouched. -/
theorem handler_failure_no_save_witness :
    start envDown store0 "t" "x" =
      (store0, Except.error EngineError.UpstreamUnavailable) :=
  (handler_failure_no_save envDown store0 "t").1 "x"
    EngineError.UpstreamUnavailable rfl rfl

/-- Claim C7: in stage AWAITING_CART_APPROVAL, `approve` with an empty item
list succeeds, never invokes the commerce collaborator, and transitions
directly to COMPLETED with an empty fulfillment result. -/
theorem approve_empty_completes (env : Env) (s : Store) (t : String)
    (h : (inspect s t).stage = Stage.AWAITING_CART_APPROVAL) :
    (approve env s t []).commerce_calls = [] ∧
    ∃ st', (approve env s t []).result = Except.ok st' ∧
      st'.stage = Stage.COMPLETED ∧
      st'.fulfillment_result = some { outcomes := [] } ∧
      inspect (approve env s t []).store t = st' := by
  have hpos : (load s t).stage = Stage.AWAITING_CART_APPROVAL := h
  have hh : handleFulfillment env.commerce (load s t) [] =
      Except.ok ({ load s t with
        stage := Stage.COMPLETED
        fulfillment_result := some { outcomes := [] } }, []) := rfl
  have he := approve_eq_of_ok env s t []
    { load s t with
      stage := Stage.COMPLETED
      fulfillment_result := some { outcomes := [] } } [] hpos hh
  refine ⟨by rw [he], ⟨_, by rw [he], rfl, rfl, ?_⟩⟩
  rw [he]
  exact load_storePut s t _

/-- Witness for C7 at a concrete approving tenant state. -/
theorem approve_empty_completes_witness :
    (approve env0 storeApproving "t" []).commerce_calls = [] ∧
    ∃ st', (approve env0 storeApproving "t" []).result = Except.ok st' ∧
      st'.stage = Stage.COMPLETED ∧
      st'.fulfillment_result = some { outcomes := [] } ∧
      inspect (approve env0 storeApproving "t" []).store "t" = st' :=
  approve_empty_completes env0 storeApproving "t" (by decide)

/-- Claim C1: for every tenant and every engine operation, the stage of the
persisted state only moves along the forward path IDLE →
AWAITING_RECIPE_SELECTION → AWAITING_CART_APPROVAL → COMPLETED with FAILED
allowed from any non-terminal stage (`allowedEdge`), and the explicit reset
deletes the state and returns the tenant to IDLE. -/
theorem workflow_stage_forward :
    (∀ (env : Env) (s : Store) (t : String) (op : Op) (st' : WorkflowState),
        (runOp env s t op).2 = Except.ok st' →
        allowedEdge (inspect s t).stage st'.stage = true ∧
        inspect (runOp env s t op).1 t = st') ∧
    (∀ (s : Store) (t : String), (inspect (reset s t) t).stage = Stage.IDLE) := by
  constructor
  · intro env s t op st' h
    cases op with
    | opStart r =>
        obtain ⟨h1, h2, h3, h4⟩ := start_ok_inversion env s t r st' h
        refine ⟨?_, ?_⟩
        · show allowedEdge (load s t).stage st'.stage = true
          rw [h1, h2]
          rfl
        · show load (start env s t r).1 t = st'
          rw [h4]
          exact load_storePut s t st'
    | opSelect c =>
        obtain ⟨h1, h2, h3, h4⟩ := select_ok_inversion env s t c st' h
        refine ⟨?_, ?_⟩
        · show allowedEdge (load s t).stage st'.stage = true
          rw [h1, h2]
          rfl
        · show load (select env s t c).1 t = st'
          rw [h4]
          exact load_storePut s t st'
    | opApprove a =>
        obtain ⟨h1, h2, h3, h4⟩ := approve_ok_inversion env s t a st' h
        refine ⟨?_, ?_⟩
        · show allowedEdge (load s t).stage st'.stage = true
          rw [h1]
          rcases h2 with h2 | h2 <;> rw [h2] <;> rfl
        · show load (approve env s t a).store t = st'
          rw [h4]
          exact load_storePut s t st'
  · intro s t
    show (load (storeDelete s t) t).stage = Stage.IDLE
    rw [load_storeDelete s t]
    rfl

/-- Witness for C1: `start` on a fresh tenant moves IDLE →
AWAITING_RECIPE_SELECTION, and the new state is the one persisted. -/
theorem workflow_stage_forward_witness :
    allowedEdge (inspect store0 "t").stage wsStarted.stage = true ∧
    inspect (runOp env0 store0 "t" (Op.opStart "x")).1 "t" = wsStarted :=
  workflow_stage_forward.1 env0 store0 "t" (Op.opStart "x") wsStarted rfl

/-- Claim C2: in stage AWAITING_RECIPE_SELECTION, selecting a non-empty
valid subset of the candidates unions the selected recipes' ingredient
lists, removes exactly the ingredients whose normalized name matches a
pantry-exclusion entry case-insensitively, makes the remainder the pending
cart items, and advances to AWAITING_CART_APPROVAL; the resulting pending
cart contains no pantry-excluded item. -/
theorem select_reconciles_pantry (env : Env) (s : Store) (t : String)
    (chosen : List Recipe) (ls : List (List CartItem))
    (hstage : (inspect s t).stage = Stage.AWAITING_RECIPE_SELECTION)
    (hne : chosen ≠ [])
    (hsub : (chosen.all fun r => (inspect s t).candidate_recipes.contains r) = true)
    (hfetch : fetchAllIngredients env.recipes chosen = Except.ok ls) :
    ∃ st', (select env s t chosen).2 = Except.ok st' ∧
      st'.stage = Stage.AWAITING_CART_APPROVAL ∧
      st'.pending_cart_items =
        (unionAll ls).filter (fun i => !isPantryExcluded env.pantry i) ∧
      (∀ i ∈ st'.pending_cart_items, isPantryExcluded env.pantry i = false) ∧
      inspect (select env s t chosen).1 t = st' := by
  have hpos : (load s t).stage = Stage.AWAITING_RECIPE_SELECTION := hstage
  have hie : chosen.isEmpty = false := by
    cases chosen with
    | nil => exact absurd rfl hne
    | cons a l => rfl
  have hsub' : (chosen.all fun r => (load s t).candidate_recipes.contains r) = true :=
    hsub
  have hh : handlePantryReconciliation env.recipes env.pantry (load s t) chosen =
      Except.ok { load s t with
        stage := Stage.AWAITING_CART_APPROVAL
        selected_recipes := chosen
        pending_cart_items :=
          (unionAll ls).filter (fun i => !isPantryExcluded env.pantry i) } := by
    unfold handlePantryReconciliation
    rw [hie, hsub', hfetch]
    rfl
  have he := select_eq_of_ok env s t chosen _ hpos hh
  refine ⟨{ { load s t with
        stage := Stage.AWAITING_CART_APPROVAL
        selected_recipes := chosen
        pending_cart_items :=
          (unionAll ls).filter (fun i => !isPantryExcluded env.pantry i) }
      with version := (load s t).version + 1 },
    by rw [he], rfl, rfl, ?_, ?_⟩
  · intro i hi
    have hi' : i ∈ (unionAll ls).filter (fun i => !isPantryExcluded env.pantry i) := hi
    have hb := (List.mem_filter.mp hi').2
    simpa using hb
  · rw [he]
    exact load_storePut s t _

/-- Witness for C2: selecting "Shrimp Scampi" with pantry entry "Salt"
keeps shrimp and pasta and removes "salt" by case-insensitive match. -/
theorem select_reconciles_pantry_witness :
    ∃ st', (select env0 storeSelecting "t" [recipeScampi]).2 = Except.ok st' ∧
      st'.stage = Stage.AWAITING_CART_APPROVAL ∧
      st'.pending_cart_items =
        (unionAll [[itemShrimp, itemSalt, itemPasta]]).filter
          (fun i => !isPantryExcluded env0.pantry i) ∧
      (∀ i ∈ st'.pending_cart_items, isPantryExcluded env0.pantry i = false) ∧
      inspect (select env0 storeSelecting "t" [recipeScampi]).1 "t" = st' :=
  select_reconciles_pantry env0 storeSelecting "t" [recipeScampi]
    [[itemShrimp, itemSalt, itemPasta]] (by decide) (by decide) (by decide) rfl

/-- Claim C3: in stage AWAITING_CART_APPROVAL with a non-empty approved
subset, `approve` attempts every item independently (one commerce call per
item, `commerce_calls = approved`), aggregates per-item outcomes, and moves
to COMPLETED exactly when at least one item is accepted and to FAILED
exactly when every item fails. -/
theorem approve_partial_success (env : Env) (s : Store) (t : String)
    (approved : List CartItem)
    (hstage : (inspect s t).stage = Stage.AWAITING_CART_APPROVAL)
    (hsub : (approved.all fun i => (inspect s t).pending_cart_items.contains i) = true)
    (hne : approved ≠ []) :
    (approve env s t approved).commerce_calls = approved ∧
    ∃ st', (approve env s t approved).result = Except.ok st' ∧
      st'.fulfillment_result =
        some { outcomes := fulfillOutcomes env.commerce approved } ∧
      (fulfillOutcomes env.commerce approved).map ItemOutcome.item = approved ∧
      (st'.stage = Stage.COMPLETED ↔
        (approved.any fun i => (env.commerce.searchAndAdd i).accepted) = true) ∧
      (st'.stage = Stage.FAILED ↔
        (approved.all fun i => !(env.commerce.searchAndAdd i).accepted) = true) ∧
      inspect (approve env s t approved).store t = st' := by
  have hpos : (load s t).stage = Stage.AWAITING_CART_APPROVAL := hstage
  have hie : approved.isEmpty = false := by
    cases approved with
    | nil => exact absurd rfl hne
    | cons a l => rfl
  have hsub' : (approved.all fun i => (load s t).pending_cart_items.contains i) = true :=
    hsub
  have hh : handleFulfillment env.commerce (load s t) approved =
      Except.ok ({ load s t with
        stage :=
          if (fulfillOutcomes env.commerce approved).any (fun o => o.accepted) then
            Stage.COMPLETED
          else Stage.FAILED
        fulfillment_result :=
          some { outcomes := fulfillOutcomes env.commerce approved } }, approved) := by
    unfold handleFulfillment
    rw [hsub', hie]
    rfl
  have he := approve_eq_of_ok env s t approved _ approved hpos hh
  refine ⟨by rw [he],
    { { load s t with
        stage :=
          if (fulfillOutcomes env.commerce approved).any (fun o => o.accepted) then
            Stage.COMPLETED
          else Stage.FAILED
        fulfillment_result :=
          some { outcomes := fulfillOutcomes env.commerce approved } }
      with version := (load s t).version + 1 },
    by rw [he], rfl, fulfillOutcomes_map_item env.commerce approved, ?_, ?_, ?_⟩
  · show (if (fulfillOutcomes env.commerce approved).any (fun o => o.accepted) then
        Stage.COMPLETED else Stage.FAILED) = Stage.COMPLETED ↔ _
    rw [fulfillOutcomes_any_accepted]
    cases hb : (approved.any fun i => (env.commerce.searchAndAdd i).accepted) with
    | true => simp [hb]
    | false => simp [hb]
  · show (if (fulfillOutcomes env.commerce approved).any (fun o => o.accepted) then
        Stage.COMPLETED else Stage.FAILED) = Stage.FAILED ↔ _
    rw [fulfillOutcomes_any_accepted, all_not_eq_not_any]
    cases hb : (approved.any fun i => (env.commerce.searchAndAdd i).accepted) with
    | true => simp [hb]
    | false => simp [hb]
  · rw [he]
    exact load_storePut s t _

/-- Witness for C3: approving shrimp and pasta where the commerce
collaborator accepts shrimp and rejects pasta completes with one success
and one failure. -/
theorem approve_partial_success_witness :
    (approve env0 storeApproving "t" [itemShrimp, itemPasta]).commerce_calls =
      [itemShrimp, itemPasta] ∧
    ∃ st', (approve env0 storeApproving "t" [itemShrimp, itemPasta]).result =
        Except.ok st' ∧
      st'.fulfillment_result =
        some { outcomes := fulfillOutcomes env0.commerce [itemShrimp, itemPasta] } ∧
      (fulfillOutcomes env0.commerce [itemShrimp, itemPasta]).map ItemOutcome.item =
        [itemShrimp, itemPasta] ∧
      (st'.stage = Stage.COMPLETED ↔
        ([itemShrimp, itemPasta].any fun i =>
          (env0.commerce.searchAndAdd i).accepted) = true) ∧
      (st'.stage = Stage.FAILED ↔
        ([itemShrimp, itemPasta].all fun i =>
          !(env0.commerce.searchAndAdd i).accepted) = true) ∧
      inspect (approve env0 storeApproving "t" [itemShrimp, itemPasta]).store "t" =
        st' :=
  approve_partial_success env0 storeApproving "t" [itemShrimp, itemPasta]
    (by decide) (by decide) (by decide)

/-- Claim C8: a checkpoint save succeeds exactly when the stored version
still equals the loaded version; every successful mutating operation
persists the loaded version plus one; hence of two `select` calls that
loaded the same version, the first to save wins and the second fails with
`ConcurrentModification` (not retried: the loser's commit returns the
winner's store unchanged). -/
theorem optimistic_concurrency_control :
    (∀ (s : Store) (t : String) (v : Nat) (st : WorkflowState),
        (∃ s', attemptSave s t v st = Except.ok s') ↔ (load s t).version = v) ∧
    (∀ (env : Env) (s : Store) (t : String) (c1 c2 : List Recipe)
        (s1 : Store) (st1 st2 : WorkflowState),
        select env s t c1 = (s1, Except.ok st1) →
        handlePantryReconciliation env.recipes env.pantry (load s t) c2 =
          Except.ok st2 →
        st1.version = (load s t).version + 1 ∧
        selectCommit env (load s t) s1 t c2 =
          (s1, Except.error EngineError.ConcurrentModification)) := by
  constructor
  · intro s t v st
    constructor
    · rintro ⟨s', hs⟩
      by_cases h : (load s t).version = v
      · exact h
      · exfalso
        unfold attemptSave at hs
        rw [if_neg h] at hs
        exact Except.noConfusion hs
    · intro h
      exact ⟨storePut s t st, by unfold attemptSave; rw [if_pos h]⟩
  · intro env s t c1 c2 s1 st1 st2 h1 h2
    have h12 : (select env s t c1).2 = Except.ok st1 := congrArg Prod.snd h1
    obtain ⟨hA, hB, hC, hD⟩ := select_ok_inversion env s t c1 st1 h12
    have hfst : (select env s t c1).1 = s1 := congrArg Prod.fst h1
    rw [hfst] at hD
    refine ⟨hC, ?_⟩
    unfold selectCommit
    rw [if_pos hA, h2]
    show finishMutation s1 t (load s t) st2 = _
    have hv : (load s1 t).version ≠ (load s t).version := by
      rw [hD, load_storePut, hC]
      exact Nat.succ_ne_self _
    rw [finishMutation_conflict s1 t (load s t) st2 hv]

/-- Witness for C8: after one successful select from version 1, a second
select that also loaded version 1 fails with `ConcurrentModification`. -/
theorem optimistic_concurrency_control_witness :
    wsSelected.version = (load storeSelecting "t").version + 1 ∧
    selectCommit env0 (load storeSelecting "t")
      (storePut storeSelecting "t" wsSelected) "t" [recipeScampi] =
      (storePut storeSelecting "t" wsSelected,
       Except.error EngineError.ConcurrentModification) :=
  optimistic_concurrency_control.2 env0 storeSelecting "t" [recipeScampi]
    [recipeScampi] (storePut storeSelecting "t" wsSelected) wsSelected
    wsSelectedHandler rfl rfl

/-- Claim C10 (frontend source): the Home page approve handler submits the
entire current pending cart unchanged — with `pending_cart` present it calls
the approve endpoint with exactly that list, with `pending_cart` absent it
makes no call, and the approve button renders only for a non-empty pending
cart, so through this client the approved list always equals the pending
cart and the empty-approval path is never exercised. -/
theorem home_approve_submits_pending_cart (ps : Option PlanState) :
    (ps.bind PlanState.pending_cart = none → handleApproveCart ps = none) ∧
    (∀ l, ps.bind PlanState.pending_cart = some l → handleApproveCart ps = some l) ∧
    (approveButtonRendered ps = true →
      ∃ l, ps.bind PlanState.pending_cart = some l ∧ l ≠ [] ∧
        handleApproveCart ps = some l) := by
  cases ps with
  | none =>
      refine ⟨fun _ => rfl, fun l h => ?_, fun h => ?_⟩
      · exact Option.noConfusion h
      · simp [approveButtonRendered, pendingCartOf] at h
  | some p =>
      cases hpc : p.pending_cart with
      | none =>
          refine ⟨fun _ => ?_, fun l h => ?_, fun h => ?_⟩
          · simp [handleApproveCart, hpc]
          · simp [hpc] at h
          · simp [approveButtonRendered, pendingCartOf, hpc] at h
      | some l0 =>
          refine ⟨fun h => ?_, fun l h => ?_, fun h => ?_⟩
          · simp [hpc] at h
          · have hl : l0 = l := by
              have h' : p.pending_cart = some l := h
              rw [hpc] at h'
              exact Option.some.inj h'
            subst hl
            simp [handleApproveCart, hpc]
          · refine ⟨l0, by simp [hpc], ?_, by simp [handleApproveCart, hpc]⟩
            intro hnil
            subst hnil
            simp [approveButtonRendered, pendingCartOf, hpc] at h

/-- Witness for C10 at a concrete plan state with a one-item pending cart. -/
theorem home_approve_submits_pending_cart_witness :
    handleApproveCart planStateW = some [pendingShrimp] ∧
    ∃ l, planStateW.bind PlanState.pending_cart = some l ∧ l ≠ [] ∧
      handleApproveCart planStateW = some l :=
  ⟨(home_approve_submits_pending_cart planStateW).2.1 [pendingShrimp] rfl,
   (home_approve_submits_pending_cart planStateW).2.2 rfl⟩

end Remy
